import Mathlib

/-!
Shallow embedding of the recommendation engine of the event-review platform.

Numbers: JavaScript numeric values are modelled as `ℚ` (all constants in the
scoring paths are decimal literals, written here as exact rationals).
JS objects keyed by ids are modelled as association lists or as functions
with default value 0, matching the `if (!m[k]) m[k] = 0` idiom.
`Array.prototype.sort` with comparator `(a, b) => b.score - a.score` is
modelled as an insertion sort by descending key.
-/

namespace Review

/-- Substring containment, modelling JavaScript `String.prototype.includes`. -/
def strContains (s pat : String) : Bool :=
  (List.range (s.toList.length + 1)).any fun i => pat.toList.isPrefixOf (s.toList.drop i)

/-- `Math.min` on rationals, written with an explicit comparison so that the
kernel can evaluate it on concrete inputs. -/
def rmin (a b : ℚ) : ℚ := if a ≤ b then a else b

/-- `Math.max` on rationals, written with an explicit comparison. -/
def rmax (a b : ℚ) : ℚ := if b ≤ a then a else b

/-- `Math.abs` on rationals, written with an explicit comparison. -/
def rabs (x : ℚ) : ℚ := if x < 0 then -x else x

/-- `Math.max(0, Math.min(1, x))`, the final clamp of the scorer. -/
def clamp01 (x : ℚ) : ℚ := rmax 0 (rmin 1 x)

/-- Descending order on a rational-valued key: the relation used to model the
JS sort comparator `(a, b) => b.score - a.score`. -/
def byKeyDesc {α : Type} (key : α → ℚ) : α → α → Prop := fun a b => key b ≤ key a

instance {α : Type} (key : α → ℚ) : DecidableRel (byKeyDesc key) :=
  fun a b => inferInstanceAs (Decidable (key b ≤ key a))

instance {α : Type} (key : α → ℚ) : IsTotal α (byKeyDesc key) :=
  ⟨fun a b => le_total (key b) (key a)⟩

instance {α : Type} (key : α → ℚ) : IsTrans α (byKeyDesc key) :=
  ⟨fun _ _ _ h1 h2 => le_trans h2 h1⟩

/-- Sort a list descending by a rational key (model of `.sort((a,b) => b.k - a.k)`). -/
def sortByDesc {α : Type} (key : α → ℚ) (l : List α) : List α :=
  l.insertionSort (byKeyDesc key)

/-! ## aiService (part_009): compatibility scorer, reasons, fallback -/

/-- A candidate event as consumed by the part_009 scorer.  `categories` holds
the ids of the event's categories (the code reads `category.id`). -/
structure Event009 where
  id : ℕ
  title : String
  description : String
  avg_rating : ℚ
  categories : List ℕ
deriving DecidableEq

/-- Per-category preference entry: after `analyzeUserPreferences` finishes,
`count` is the number of contributing reviews and `avgRating` their mean. -/
structure CatPref where
  count : ℕ
  avgRating : ℚ
deriving DecidableEq

/-- The preference profile built by `analyzeUserPreferences` (part_009). -/
structure Preferences where
  categories : List (ℕ × CatPref)
  avgRating : ℚ
  positiveKeywords : List String
  negativeKeywords : List String
deriving DecidableEq

/-- Lookup of `preferences.categories[categoryId]`. -/
def lookupCat (cats : List (ℕ × CatPref)) (c : ℕ) : Option CatPref :=
  (cats.find? fun p => p.1 == c).map (·.2)

/-- `calculateCompatibilityScore` (part_009, lines 547..590), translated
step by step: a base score of 0.5, plus the category block (skipped entirely
when the event has no categories), plus the rating-proximity term, plus the
normalized keyword term, finally clamped to [0, 1]. -/
def calculateCompatibilityScore (event : Event009) (preferences : Preferences) : ℚ :=
  let score0 : ℚ := 1/2
  let score1 :=
    if 0 < event.categories.length then
      let catSum := event.categories.foldl (fun acc c =>
        match lookupCat preferences.categories c with
        | some catPref => acc + (catPref.avgRating / 5) * ((catPref.count : ℚ) / 10)
        | none => acc) 0
      let categoryScore := rmin catSum 1 / (event.categories.length : ℚ)
      score0 + categoryScore * (2/5)
    else score0
  let ratingScore := 1 - rabs (event.avg_rating - preferences.avgRating) / 5
  let score2 := score1 + ratingScore * (3/10)
  let eventText := (event.title ++ " " ++ event.description).toLower
  let kwRaw := preferences.negativeKeywords.foldl
    (fun acc kw => if strContains eventText kw then acc - 1/10 else acc)
    (preferences.positiveKeywords.foldl
      (fun acc kw => if strContains eventText kw then acc + 1/10 else acc) 0)
  let keywordScore := rmax (-1) (rmin 1 kwRaw)
  let score3 := score2 + (keywordScore + 1) / 2 * (3/10)
  clamp01 score3

/-- The category component of the score, as the spec describes it: mean of
the clamped per-category affinity over the event's categories, 0 for an
event without categories. -/
def categoryComponent (event : Event009) (preferences : Preferences) : ℚ :=
  if 0 < event.categories.length then
    rmin (event.categories.foldl (fun acc c =>
      match lookupCat preferences.categories c with
      | some catPref => acc + (catPref.avgRating / 5) * ((catPref.count : ℚ) / 10)
      | none => acc) 0) 1 / (event.categories.length : ℚ)
  else 0

/-- The rating-proximity component of the score, as the spec describes it. -/
def ratingComponent (event : Event009) (preferences : Preferences) : ℚ :=
  1 - rabs (event.avg_rating - preferences.avgRating) / 5

/-- The raw keyword sum: +0.1 per positive keyword occurring in
`title + " " + description`, −0.1 per negative keyword. -/
def keywordRaw (event : Event009) (preferences : Preferences) : ℚ :=
  let eventText := (event.title ++ " " ++ event.description).toLower
  preferences.negativeKeywords.foldl
    (fun acc kw => if strContains eventText kw then acc - 1/10 else acc)
    (preferences.positiveKeywords.foldl
      (fun acc kw => if strContains eventText kw then acc + 1/10 else acc) 0)

/-- The normalized keyword component of the score, as the spec describes
it: the raw sum clamped to [−1, 1] and remapped to [0, 1]. -/
def keywordComponent (event : Event009) (preferences : Preferences) : ℚ :=
  (rmax (-1) (rmin 1 (keywordRaw event preferences)) + 1) / 2

/-- The score formula exactly as the spec's explicit formula states it
(components weighted 0.4/0.3/0.3, no base term, clamped):
`score = categoryScore*0.4 + ratingScore*0.3 + keywordScoreNormalized*0.3`. -/
def specScoreFormula (event : Event009) (preferences : Preferences) : ℚ :=
  clamp01 (categoryComponent event preferences * (2/5)
    + ratingComponent event preferences * (3/10)
    + keywordComponent event preferences * (3/10))

/-- `generateRecommendationReason` (part_009, lines 599..610): strict
thresholds `score > 0.8`, `> 0.6`, `> 0.4`. -/
def generateRecommendationReason (score : ℚ) : String :=
  if 4/5 < score then "Highly matches your interests based on your ratings and reviews"
  else if 3/5 < score then "Similar to events you\x27ve enjoyed in the past"
  else if 2/5 < score then "You might find this event interesting"
  else "This event offers something different from your usual preferences"

/-- A recommendation record produced by the part_009 paths. -/
structure Rec009 where
  eventId : ℕ
  userId : ℕ
  score : ℚ
  reason : String
deriving DecidableEq

/-- `generateFallbackRecommendations` (part_009, lines 619..631):
`events.slice(0, 10)`, map to `avg_rating / 5` with a fixed reason, sort
descending by score, `slice(0, 5)`. -/
def generateFallbackRecommendations (userId : ℕ) (events : List Event009) : List Rec009 :=
  (sortByDesc (·.score)
    ((events.take 10).map fun event =>
      { eventId := event.id
        userId := userId
        score := event.avg_rating / 5
        reason := "Based on event popularity and rating" })).take 5

/-! ## AIService (part_010): category preferences and jittered scoring -/

/-- A review row as consumed by `AIService.generateRecommendations`:
`review.category` is a single category name, `review.rating` a number. -/
structure Review010 where
  category : String
  rating : ℚ
deriving DecidableEq

/-- A calendar row as passed (and never read) by
`AIService.generateRecommendations`; carries the category of the
calendared event. -/
structure CalEntry010 where
  category : String
deriving DecidableEq

/-- An event row as consumed by `AIService.generateRecommendations`.  The
source stores `categories` as a comma-separated string and computes
`event.categories.split(',')` before scoring; the field here is that split
list of category names. -/
structure Event010 where
  id : ℕ
  categories : List String
deriving DecidableEq

/-- Accumulator for one category: `count`, `totalRating`, and the
`avgRating` filled in by the second pass. -/
structure CatAcc where
  count : ℕ
  totalRating : ℚ
  avgRating : ℚ
deriving DecidableEq

/-- The `categoryPreferences` map built at the start of
`AIService.generateRecommendations` (part_010, lines 20..38).  It folds the
review rows only; the `userCalendar` argument is in scope in the source but
never read, which this definition mirrors. -/
def aiCategoryPreferences (userReviews : List Review010) (userCalendar : List CalEntry010) :
    List (String × CatAcc) :=
  let counted := userReviews.foldl
    (fun (acc : List (String × CatAcc)) review =>
      match acc.find? (fun p => p.1 == review.category) with
      | some _ => acc.map fun p =>
          if p.1 == review.category then
            (p.1, { p.2 with count := p.2.count + 1, totalRating := p.2.totalRating + review.rating })
          else p
      | none => acc ++ [(review.category, { count := 1, totalRating := review.rating, avgRating := 0 })])
    []
  let _ := userCalendar
  counted.map fun p => (p.1, { p.2 with avgRating := p.2.totalRating / (p.2.count : ℚ) })

/-- `count` recorded for category `c` in the part_010 preference map (0 when
the category is absent), used to state the calendar-folding claim. -/
def aiPrefCount (prefs : List (String × CatAcc)) (c : String) : ℕ :=
  match prefs.find? (fun p => p.1 == c) with
  | some p => p.2.count
  | none => 0

/-- The pre-jitter score of one event (part_010, lines 41..63): accumulate
`(avgRating/5)*0.8 + (count/userReviews.length)*0.2` over the event's
categories that appear in the preference map, divide by the number of
matches, defaulting to 0.5 when nothing matches. -/
def aiBaseScore (prefs : List (String × CatAcc)) (nReviews : ℕ) (event : Event010) : ℚ :=
  let eventCategories := event.categories
  let acc := eventCategories.foldl
    (fun (acc : ℚ × ℕ) category =>
      match prefs.find? (fun p => p.1 == category) with
      | some p =>
          (acc.1 + (p.2.avgRating / 5) * (4/5) + ((p.2.count : ℚ) / (nReviews : ℚ)) * (1/5),
           acc.2 + 1)
      | none => acc)
    (0, 0)
  if 0 < acc.2 then acc.1 / (acc.2 : ℚ) else 1/2

/-- The clamped score of one event after the random jitter draw `r`
(`score += Math.random() * 0.1` followed by the clamp). -/
def aiEventScore (prefs : List (String × CatAcc)) (nReviews : ℕ) (event : Event010) (r : ℚ) : ℚ :=
  clamp01 (aiBaseScore prefs nReviews event + r)

/-- Reason buckets of part_010 (strict thresholds, highest first). -/
def aiReason (score : ℚ) : String :=
  if 4/5 < score then "Highly matches your preferences"
  else if 3/5 < score then "Similar to events you enjoyed"
  else if 2/5 < score then "You might be interested in this"
  else "Recommended to diversify your experiences"

/-- A recommendation row produced by part_010. -/
structure Rec010 where
  user_id : ℕ
  event_id : ℕ
  score : ℚ
  reason : String
deriving DecidableEq

/-- `AIService.generateRecommendations` (part_010, lines 15..90).  The random
draws of `Math.random() * 0.1` are made explicit as `rand i` for the `i`-th
scored event; the output is all scored events sorted descending by score
(no truncation happens in this function). -/
def aiGenerateRecommendations (userId : ℕ) (userReviews : List Review010)
    (userCalendar : List CalEntry010) (availableEvents : List Event010)
    (rand : ℕ → ℚ) : List Rec010 :=
  let prefs := aiCategoryPreferences userReviews userCalendar
  let recommendations := availableEvents.enum.map fun ie =>
    let score := aiEventScore prefs userReviews.length ie.2 (rand ie.1)
    { user_id := userId
      event_id := ie.2.id
      score := score
      reason := aiReason score }
  sortByDesc (·.score) recommendations

/-! ## recommendationModel (part_005): generateForUser, createOrUpdate,
getPopularEvents -/

/-- One row of the `userReviews` query of `generateForUser`: a review joined
to one of its event's categories (only `rating` and `category_id` are read
by the interest fold). -/
structure ReviewRow005 where
  rating : ℚ
  category_id : ℕ
deriving DecidableEq

/-- One row of the `userCalendar` query of `generateForUser` (only
`category_id` is read by the interest fold). -/
structure CalRow005 where
  category_id : ℕ
deriving DecidableEq

/-- The `categoryInterest` object of `generateForUser` (part_005, lines
137..152), as a total function with default 0: reviews add their rating,
calendar rows add the constant 3. -/
def categoryInterest (userReviews : List ReviewRow005) (userCalendar : List CalRow005) :
    ℕ → ℚ :=
  let fromReviews := userReviews.foldl
    (fun acc review => fun c => if c = review.category_id then acc c + review.rating else acc c)
    (fun _ => 0)
  userCalendar.foldl
    (fun acc entry => fun c => if c = entry.category_id then acc c + 3 else acc c)
    fromReviews

/-- One row of the `upcomingEvents` query of `generateForUser`: one row per
(event, category) pair, grouped by `e.id, ec.category_id`. -/
structure UpcomingRow where
  id : ℕ
  title : String
  category_id : ℕ
  avg_rating : ℚ
  review_count : ℕ
deriving DecidableEq

/-- The distinct event ids of the `scoredEvents` object.  JS objects with
integer-like keys enumerate them in ascending numeric order, so
`Object.values(scoredEvents)` yields ascending event ids. -/
def upcomingIds (rows : List UpcomingRow) : List ℕ :=
  ((rows.map (·.id)).dedup).insertionSort (· ≤ ·)

/-- The accumulated score of one event across its rows (part_005, lines
172..190): each row adds `interest(category)*0.2` plus
`avg_rating*0.5 + min(review_count, 10)*0.03`. -/
def scoredEventScore (interest : ℕ → ℚ) (rows : List UpcomingRow) (id : ℕ) : ℚ :=
  rows.foldl
    (fun acc row =>
      if row.id = id then
        acc + interest row.category_id * (1/5) + row.avg_rating * (1/2)
          + ((min row.review_count 10 : ℕ) : ℚ) * (3/100)
      else acc)
    0

/-- The `title` field captured when the event's entry is created: the title
of the first row carrying that event id. -/
def scoredEventTitle (rows : List UpcomingRow) (id : ℕ) : String :=
  ((rows.find? fun row => row.id == id).map (·.title)).getD ""

/-- `parseFloat(score.toFixed(4))`: rounding to 4 decimal places (ties
upward; every score reaching this point in `generateForUser` is a sum of
nonnegative terms for valid inputs). -/
def round4 (x : ℚ) : ℚ := ((⌊x * 10000 + 1/2⌋ : ℤ) : ℚ) / 10000

/-- A recommendation produced by `generateForUser`. -/
structure RecG where
  user_id : ℕ
  event_id : ℕ
  score : ℚ
  reason : String
deriving DecidableEq

/-- The mapped-and-filtered recommendation list of `generateForUser`
(part_005, lines 192..198), before the final sort: scored events with
rounded scores and reason strings, restricted to strictly positive
scores. -/
def generateForUserPositives (userId : ℕ) (userReviews : List ReviewRow005)
    (userCalendar : List CalRow005) (rows : List UpcomingRow) : List RecG :=
  let interest := categoryInterest userReviews userCalendar
  let recommendations := (upcomingIds rows).map fun id =>
    { user_id := userId
      event_id := id
      score := round4 (scoredEventScore interest rows id)
      reason := "Based on your interest in events like \"" ++ scoredEventTitle rows id ++ "\"" }
  recommendations.filter fun item => 0 < item.score

/-- The ranked recommendation list of `generateForUser` (part_005, lines
192..199): the positive-score recommendations sorted descending by
score. -/
def generateForUserRanked (userId : ℕ) (userReviews : List ReviewRow005)
    (userCalendar : List CalRow005) (rows : List UpcomingRow) : List RecG :=
  sortByDesc (·.score) (generateForUserPositives userId userReviews userCalendar rows)

/-- The persistence loop of `generateForUser` (part_005, lines 201..209):
upsert each of the top 20 rows in order.  `ok` abstracts the storage
layer's success or failure of one row's upsert; a failing `await` throws,
which aborts the loop — the first component is the list of rows actually
persisted, the second the error of the first failing row, if any. -/
def persistLoop (ok : RecG → Bool) : List RecG → List RecG × Option String
  | [] => ([], none)
  | r :: rs =>
    if ok r then
      let res := persistLoop ok rs
      (r :: res.1, res.2)
    else ([], some "upsert failed")

/-- The overall result of `generateForUser`: the saved rows when every
upsert of the top-20 slice succeeds, or the rethrown error of the first
failing upsert (the enclosing try/catch rethrows). -/
def generateForUserResult (ok : RecG → Bool) (userId : ℕ) (userReviews : List ReviewRow005)
    (userCalendar : List CalRow005) (rows : List UpcomingRow) : Except String (List RecG) :=
  let res := persistLoop ok ((generateForUserRanked userId userReviews userCalendar rows).take 20)
  match res.2 with
  | some e => Except.error e
  | none => Except.ok res.1

/-- A stored row of the `recommendations` table. -/
structure StoredRec where
  id : ℕ
  user_id : ℕ
  event_id : ℕ
  score : ℚ
  reason : String
deriving DecidableEq

/-- Auto-increment id for an insert. -/
def nextId (store : List StoredRec) : ℕ :=
  store.foldl (fun m r => max m r.id) 0 + 1

/-- The `WHERE user_id = ? AND event_id = ?` match. -/
def keyMatch (user_id event_id : ℕ) (r : StoredRec) : Bool :=
  r.user_id == user_id && r.event_id == event_id

/-- `Recommendation.createOrUpdate` (part_005, lines 13..56): select the
existing row for `(user_id, event_id)`; if found, update its score and
reason by id, else insert a fresh row. -/
def createOrUpdate (store : List StoredRec) (user_id event_id : ℕ) (score : ℚ)
    (reason : String) : List StoredRec :=
  match store.find? (keyMatch user_id event_id) with
  | some existing =>
      store.map fun r =>
        if r.id == existing.id then { r with score := score, reason := reason } else r
  | none =>
      store ++ [{ id := nextId store, user_id := user_id, event_id := event_id,
                  score := score, reason := reason }]

/-- An event row of the `getPopularEvents` query, carrying the aggregated
`review_count` and `calendar_count` the SQL computes. -/
structure PopRow where
  id : ℕ
  date : ℕ
  status : String
  categories : List ℕ
  avg_rating : ℚ
  review_count : ℕ
  calendar_count : ℕ
deriving DecidableEq

/-- The ORDER BY key of `getPopularEvents`:
`avg_rating*0.5 + calendar_count*0.3 + review_count*0.2`. -/
def popularityKey (e : PopRow) : ℚ :=
  e.avg_rating * (1/2) + (e.calendar_count : ℚ) * (3/10) + (e.review_count : ℚ) * (1/5)

/-- The WHERE clause of `getPopularEvents`: `e.date >= CURDATE()`,
`e.status = 'upcoming'`, and, when a category filter is supplied,
membership of that category. -/
def popFilter (today : ℕ) (categoryId : Option ℕ) (e : PopRow) : Bool :=
  (today ≤ e.date) && (e.status == "upcoming") &&
    (match categoryId with
     | some c => e.categories.contains c
     | none => true)

/-- `Recommendation.getPopularEvents` (part_005, lines 220..252): filter,
order descending by the popularity key, truncate to `limit`. -/
def getPopularEvents (today : ℕ) (events : List PopRow) (limit : ℕ)
    (categoryId : Option ℕ) : List PopRow :=
  (sortByDesc popularityKey (events.filter (popFilter today categoryId))).take limit

/-! ## Helper lemmas -/

theorem rmin_eq_min (a b : ℚ) : rmin a b = min a b := (min_def a b).symm

theorem rmax_eq_max (a b : ℚ) : rmax a b = max a b := by
  unfold rmax
  rw [max_def]
  rcases lt_trichotomy a b with h | h | h
  · rw [if_neg (not_le.mpr h), if_pos h.le]
  · simp [h]
  · rw [if_pos h.le, if_neg (not_le.mpr h)]

theorem rabs_eq_abs (x : ℚ) : rabs x = |x| := by
  unfold rabs
  rcases lt_or_le x 0 with h | h
  · rw [if_pos h, abs_of_neg h]
  · rw [if_neg (not_lt.mpr h), abs_of_nonneg h]

theorem clamp01_eq (x : ℚ) : clamp01 x = max 0 (min 1 x) := by
  rw [clamp01, rmax_eq_max, rmin_eq_min]

theorem clamp01_nonneg (x : ℚ) : 0 ≤ clamp01 x := by
  rw [clamp01_eq]; exact le_max_left 0 _

theorem clamp01_le_one (x : ℚ) : clamp01 x ≤ 1 := by
  rw [clamp01_eq]
  rcases le_total 0 (min 1 x) with h | h
  · rw [max_eq_right h]; exact min_le_left 1 x
  · rw [max_eq_left h]; exact zero_le_one

theorem clamp01_lipschitz (a b : ℚ) : |clamp01 a - clamp01 b| ≤ |a - b| := by
  rw [clamp01_eq, clamp01_eq]
  have h1 : |max 0 (min 1 a) - max 0 (min 1 b)| ≤ |min 1 a - min 1 b| := by
    rw [max_comm 0 (min 1 a), max_comm 0 (min 1 b)]
    exact abs_max_sub_max_le_abs _ _ _
  have h2 : |min 1 a - min 1 b| ≤ max |(1 : ℚ) - 1| |a - b| := abs_min_sub_min_le_max 1 a 1 b
  simp only [sub_self, abs_zero, max_eq_right (abs_nonneg (a - b))] at h2
  exact h1.trans h2

theorem sortByDesc_perm {α : Type} (key : α → ℚ) (l : List α) :
    (sortByDesc key l).Perm l :=
  List.perm_insertionSort _ l

theorem sortByDesc_sorted {α : Type} (key : α → ℚ) (l : List α) :
    (sortByDesc key l).Pairwise (fun a b => key b ≤ key a) :=
  List.sorted_insertionSort (byKeyDesc key) l

theorem sortByDesc_length {α : Type} (key : α → ℚ) (l : List α) :
    (sortByDesc key l).length = l.length :=
  List.length_insertionSort _ l

/-- Splitting a descending sort at position `n`: the kept prefix together with
the dropped suffix is a permutation of the input, and every dropped element
has key at most the key of every kept element. -/
theorem sortByDesc_take_split {α : Type} (key : α → ℚ) (l : List α) (n : ℕ) :
    ((sortByDesc key l).take n ++ (sortByDesc key l).drop n).Perm l ∧
    ((sortByDesc key l).take n).Pairwise (fun a b => key b ≤ key a) ∧
    ∀ a ∈ (sortByDesc key l).take n, ∀ b ∈ (sortByDesc key l).drop n, key b ≤ key a := by
  have hsorted := sortByDesc_sorted key l
  have hsplit : (sortByDesc key l).take n ++ (sortByDesc key l).drop n = sortByDesc key l :=
    List.take_append_drop n _
  have hpair : ((sortByDesc key l).take n ++ (sortByDesc key l).drop n).Pairwise
      (fun a b => key b ≤ key a) := by rw [hsplit]; exact hsorted
  rw [List.pairwise_append] at hpair
  refine ⟨?_, hpair.1, hpair.2.2⟩
  rw [hsplit]
  exact sortByDesc_perm key l

/-! ## Claim theorems -/

/-- C1, counterexample.  The claim's formula (no base term) predicts 0.85 on
the cited profile/event, but `calculateCompatibilityScore` starts from a
base score of 0.5 before adding the weighted components, so on the profile
with one category `{avg_rating 5, count 10}`, overall average 4.5, and a
candidate in that category with `avg_rating` 4.5 and no lexicon keywords, it
returns 1 (clamped), not 0.85. -/
theorem C1_score_example_is_one_not_085 :
    calculateCompatibilityScore ⟨1, "T", "D", 9/2, [1]⟩ ⟨[(1, ⟨10, 5⟩)], 9/2, [], []⟩ = 1 ∧
    (1 : ℚ) ≠ 17/20 := by
  constructor
  · norm_num [calculateCompatibilityScore, lookupCat, rmin, rmax, rabs, clamp01, List.find?]
  · norm_num

/-- C1, amended.  The compatibility score equals the clamp to [0, 1] of a
0.5 base plus `categoryScore*0.4 + ratingScore*0.3 + keywordScoreNormalized*0.3`
(components as the spec describes them); the spec's base-free formula
yields 0.85 on the cited example, while the code yields 1 and the
"Highly matches" reason. -/
theorem C1_score_formula_with_base :
    (∀ (e : Event009) (p : Preferences),
      calculateCompatibilityScore e p =
        clamp01 (1/2 + categoryComponent e p * (2/5) + ratingComponent e p * (3/10)
          + keywordComponent e p * (3/10))) ∧
    specScoreFormula ⟨1, "T", "D", 9/2, [1]⟩ ⟨[(1, ⟨10, 5⟩)], 9/2, [], []⟩ = 17/20 ∧
    generateRecommendationReason
      (calculateCompatibilityScore ⟨1, "T", "D", 9/2, [1]⟩ ⟨[(1, ⟨10, 5⟩)], 9/2, [], []⟩) =
      "Highly matches your interests based on your ratings and reviews" := by
  refine ⟨fun e p => ?_, ?_, ?_⟩
  · simp only [calculateCompatibilityScore, categoryComponent, ratingComponent, keywordComponent,
      keywordRaw]
    split_ifs with h <;> first | (congr 1; ring) | (congr 1)
  · norm_num [specScoreFormula, categoryComponent, ratingComponent, keywordComponent, keywordRaw,
      lookupCat, rmin, rmax, rabs, clamp01, List.find?]
  · have h : calculateCompatibilityScore ⟨1, "T", "D", 9/2, [1]⟩ ⟨[(1, ⟨10, 5⟩)], 9/2, [], []⟩
        = 1 := by
      norm_num [calculateCompatibilityScore, lookupCat, rmin, rmax, rabs, clamp01, List.find?]
    rw [h]
    norm_num [generateRecommendationReason]

/-- C2, counterexample.  The `generateForUser` path does not clamp: with no
reviews and no calendar rows, a single upcoming event with `avg_rating` 5
and 10 reviews is scored `5*0.5 + 10*0.03 = 2.8`, persisted and returned as
2.8, which is outside [0.0, 1.0]. -/
theorem C2_generateForUser_score_exceeds_one :
    generateForUserResult (fun _ => true) 7 [] [] [⟨1, "T", 1, 5, 10⟩] =
      Except.ok [⟨7, 1, 14/5, "Based on your interest in events like \"T\""⟩] ∧
    ¬((14/5 : ℚ) ≤ 1) := by
  constructor
  · norm_num [generateForUserResult, generateForUserRanked, generateForUserPositives,
      categoryInterest, upcomingIds, scoredEventScore, scoredEventTitle, round4, persistLoop,
      sortByDesc, List.insertionSort, List.orderedInsert, List.dedup, List.find?,
      List.takeWhile]
    rfl
  · norm_num

/-- C2, amended.  The scores computed by `calculateCompatibilityScore`
(part_009) and by the per-event scoring of `AIService.generateRecommendations`
(part_010) are clamped to [0.0, 1.0]; the model-level `generateForUser` path
persists its scores without clamping (see the counterexample). -/
theorem C2_scorer_outputs_clamped :
    (∀ (e : Event009) (p : Preferences),
      0 ≤ calculateCompatibilityScore e p ∧ calculateCompatibilityScore e p ≤ 1) ∧
    (∀ (prefs : List (String × CatAcc)) (n : ℕ) (ev : Event010) (r : ℚ),
      0 ≤ aiEventScore prefs n ev r ∧ aiEventScore prefs n ev r ≤ 1) := by
  refine ⟨fun e p => ?_, fun prefs n ev r => ?_⟩
  · simp only [calculateCompatibilityScore]
    exact ⟨clamp01_nonneg _, clamp01_le_one _⟩
  · simp only [aiEventScore]
    exact ⟨clamp01_nonneg _, clamp01_le_one _⟩

/-- The length of the AIService output equals the number of candidate
events: no truncation happens in `AIService.generateRecommendations`. -/
theorem aiGenerateRecommendations_length (u : ℕ) (revs : List Review010)
    (cal : List CalEntry010) (evs : List Event010) (rand : ℕ → ℚ) :
    (aiGenerateRecommendations u revs cal evs rand).length = evs.length := by
  unfold aiGenerateRecommendations
  rw [sortByDesc_length, List.length_map, List.enum_length]

/-- C3, counterexample.  `AIService.generateRecommendations` (part_010), one
of the two cited generation paths, returns every scored candidate: with 21
candidate events it returns 21 recommendations, so the returned list can
exceed 20 entries. -/
theorem C3_aiService_returns_more_than_20 :
    (aiGenerateRecommendations 1 [⟨"A", 3⟩] [] ((List.range 21).map fun i => ⟨i, ["A"]⟩)
      (fun _ => 0)).length = 21 ∧ ¬(21 ≤ 20) := by
  constructor
  · rw [aiGenerateRecommendations_length]
    simp
  · decide

/-- C3, amended.  Only the model-level `generateForUser` path truncates: it
persists and returns the first 20 entries of its descending-sorted
positive-score list (so exactly 20 when more than 20 candidates score
positively, and the whole sorted list splits as kept prefix plus dominated
suffix); the `AIService.generateRecommendations` path returns all scored
candidates without a cap (see the counterexample). -/
theorem C3_generateForUser_top20 :
    ∀ (u : ℕ) (revs : List ReviewRow005) (cal : List CalRow005) (rows : List UpcomingRow),
      ((generateForUserRanked u revs cal rows).take 20).length =
        min 20 (generateForUserPositives u revs cal rows).length ∧
      ((generateForUserRanked u revs cal rows).take 20 ++
        (generateForUserRanked u revs cal rows).drop 20).Pairwise
          (fun a b => b.score ≤ a.score) ∧
      ((generateForUserRanked u revs cal rows).take 20 ++
        (generateForUserRanked u revs cal rows).drop 20).Perm
          (generateForUserPositives u revs cal rows) := by
  intro u revs cal rows
  refine ⟨?_, ?_, ?_⟩
  · rw [List.length_take, generateForUserRanked, sortByDesc_length]
  · rw [List.take_append_drop, generateForUserRanked]
    exact sortByDesc_sorted _ _
  · rw [List.take_append_drop, generateForUserRanked]
    exact sortByDesc_perm _ _

/-- C4, counterexample.  The claim requires a calendar signal to increment
its category's count in the preference accumulators; in the code the
count/average profile builder of part_010 ignores the calendar argument
entirely: with no reviews and one calendar entry in category "A", the
recorded count for "A" is 0, not the predecessor count plus 1. -/
theorem C4_calendar_does_not_touch_counts :
    aiPrefCount (aiCategoryPreferences [] [⟨"A"⟩]) "A" = 0 ∧
    aiPrefCount (aiCategoryPreferences [] []) "A"
      + ([(⟨"A"⟩ : CalEntry010)].filter fun s => s.category == "A").length = 1 ∧
    (0 : ℕ) ≠ 1 :=
  ⟨rfl, rfl, by decide⟩

/-- Folding the calendar rows of `generateForUser` adds exactly 3 per row to
the matching category of the running interest function. -/
theorem categoryInterest_calendar_fold (cal : List CalRow005) :
    ∀ (f : ℕ → ℚ) (x : ℕ),
      (cal.foldl (fun acc entry => fun c => if c = entry.category_id then acc c + 3 else acc c)
        f) x = f x + 3 * (((cal.filter fun e => e.category_id == x).length : ℕ) : ℚ) := by
  induction cal with
  | nil => intro f x; simp
  | cons e rest ih =>
    intro f x
    rw [List.foldl_cons, ih, List.filter_cons]
    by_cases h : x = e.category_id
    · rw [if_pos h]
      have hbeq : (e.category_id == x) = true := by simp [h.symm]
      simp only [hbeq, if_pos, List.length_cons]
      push_cast
      ring
    · rw [if_neg h]
      have hbeq : (e.category_id == x) = false := by
        simp
        exact fun hc => h hc.symm
      simp only [hbeq]
      simp

/-- C4, amended.  Calendar signals never reach the per-category count/average
profile builders: the part_010 builder is independent of its calendar
argument.  The only calendar folding is the flat interest sum of
`generateForUser` (part_005): each calendar row adds exactly 3 to its
category's interest — the same contribution as a rating-3 review row —
with no count increment and no average. -/
theorem C4_calendar_flat_interest :
    (∀ (revs : List Review010) (cal1 cal2 : List CalEntry010),
      aiCategoryPreferences revs cal1 = aiCategoryPreferences revs cal2) ∧
    (∀ (revs : List ReviewRow005) (cal : List CalRow005) (x : ℕ),
      categoryInterest revs cal x = categoryInterest revs [] x
        + 3 * (((cal.filter fun e => e.category_id == x).length : ℕ) : ℚ)) ∧
    (∀ (revs : List ReviewRow005) (cal : List CalRow005) (c x : ℕ),
      categoryInterest revs (⟨c⟩ :: cal) x = categoryInterest (revs ++ [⟨3, c⟩]) cal x) := by
  refine ⟨fun _ _ _ => rfl, fun revs cal x => ?_, fun revs cal c x => ?_⟩
  · simp only [categoryInterest, List.foldl_nil]
    exact categoryInterest_calendar_fold cal _ x
  · simp [categoryInterest, List.foldl_append]

/-- C5, counterexample.  The persistence loop of `generateForUser` is not
per-row recoverable: with three rows whose middle upsert fails, only the
first row is persisted (the third is never attempted), and the persisted
list is not the successfully-upsertable subset `[first, third]`.  The
enclosing catch rethrows, so the call fails as a whole instead of
returning the persisted subset. -/
theorem C5_upsert_failure_aborts_loop :
    persistLoop (fun r => !(r.event_id == 2)) [⟨1, 1, 0, "a"⟩, ⟨1, 2, 0, "b"⟩, ⟨1, 3, 0, "c"⟩] =
      ([⟨1, 1, 0, "a"⟩], some "upsert failed") ∧
    ([⟨1, 1, 0, "a"⟩] : List RecG) ≠ [⟨1, 1, 0, "a"⟩, ⟨1, 3, 0, "c"⟩] := by
  constructor
  · simp [persistLoop]
  · intro h
    exact absurd (congrArg List.length h) (by decide)

/-- C5, amended.  The upsert loop of `generateForUser` stops at the first
failing row: the rows persisted are exactly the longest all-succeeding
prefix, and the call succeeds (returns instead of throwing) exactly when
every row's upsert succeeds. -/
theorem C5_persist_prefix_semantics :
    ∀ (ok : RecG → Bool) (recs : List RecG),
      (persistLoop ok recs).1 = recs.takeWhile ok ∧
      (persistLoop ok recs).2.isNone = recs.all ok := by
  intro ok recs
  induction recs with
  | nil => simp [persistLoop]
  | cons r rs ih =>
    by_cases h : ok r
    · simp [persistLoop, h, List.takeWhile_cons, ih.1, ih.2]
    · simp [persistLoop, h, List.takeWhile_cons]

/-- C6, counterexample.  `AIService.generateRecommendations` adds the random
jitter `Math.random() * 0.1` to each score: on identical inputs, the draw 0
produces score 0.68 while the draw 0.05 produces 0.73, so two evaluations
on identical inputs differ. -/
theorem C6_jitter_breaks_determinism :
    aiGenerateRecommendations 1 [⟨"A", 3⟩] [] [⟨1, ["A"]⟩] (fun _ => 0) =
      [⟨1, 1, 17/25, "Similar to events you enjoyed"⟩] ∧
    aiGenerateRecommendations 1 [⟨"A", 3⟩] [] [⟨1, ["A"]⟩] (fun _ => 1/20) =
      [⟨1, 1, 73/100, "Similar to events you enjoyed"⟩] ∧
    aiGenerateRecommendations 1 [⟨"A", 3⟩] [] [⟨1, ["A"]⟩] (fun _ => 0) ≠
      aiGenerateRecommendations 1 [⟨"A", 3⟩] [] [⟨1, ["A"]⟩] (fun _ => 1/20) := by
  have h1 : aiGenerateRecommendations 1 [⟨"A", 3⟩] [] [⟨1, ["A"]⟩] (fun _ => 0) =
      [⟨1, 1, 17/25, "Similar to events you enjoyed"⟩] := by
    norm_num [aiGenerateRecommendations, aiCategoryPreferences, aiBaseScore, aiEventScore,
      aiReason, clamp01, rmin, rmax, sortByDesc, List.insertionSort, List.orderedInsert,
      List.find?, List.enum]
  have h2 : aiGenerateRecommendations 1 [⟨"A", 3⟩] [] [⟨1, ["A"]⟩] (fun _ => 1/20) =
      [⟨1, 1, 73/100, "Similar to events you enjoyed"⟩] := by
    norm_num [aiGenerateRecommendations, aiCategoryPreferences, aiBaseScore, aiEventScore,
      aiReason, clamp01, rmin, rmax, sortByDesc, List.insertionSort, List.orderedInsert,
      List.find?, List.enum]
  refine ⟨h1, h2, ?_⟩
  rw [h1, h2]
  intro h
  simp only [List.cons.injEq, Rec010.mk.injEq] at h
  have := h.1.2.2.1
  norm_num at this

/-- C6, amended.  All scoring inputs fixed, the part_010 score of a
candidate can vary across evaluations only through the jitter draw: for any
two draws in [0, 0.1], the clamped scores differ by at most 0.1. -/
theorem C6_jitter_bounded_variation :
    ∀ (prefs : List (String × CatAcc)) (n : ℕ) (ev : Event010) (r1 r2 : ℚ),
      0 ≤ r1 → r1 ≤ 1/10 → 0 ≤ r2 → r2 ≤ 1/10 →
      |aiEventScore prefs n ev r1 - aiEventScore prefs n ev r2| ≤ 1/10 := by
  intro prefs n ev r1 r2 h1 h2 h3 h4
  have hl := clamp01_lipschitz (aiBaseScore prefs n ev + r1) (aiBaseScore prefs n ev + r2)
  simp only [aiEventScore]
  refine hl.trans ?_
  have harg : aiBaseScore prefs n ev + r1 - (aiBaseScore prefs n ev + r2) = r1 - r2 := by ring
  rw [harg]
  exact abs_le.mpr ⟨by linarith, by linarith⟩

/-- Witness for the jitter bound at concrete draws 0 and 0.1. -/
theorem C6_jitter_bounded_variation_witness :
    |aiEventScore [] 0 ⟨1, []⟩ 0 - aiEventScore [] 0 ⟨1, []⟩ (1/10)| ≤ 1/10 :=
  C6_jitter_bounded_variation [] 0 ⟨1, []⟩ 0 (1/10)
    (by norm_num) (by norm_num) (by norm_num) (by norm_num)

/-- In a list with at most one element satisfying `p`, any two members
satisfying `p` are equal. -/
theorem countP_le_one_unique {α : Type} {p : α → Bool} :
    ∀ {l : List α}, l.countP p ≤ 1 → ∀ {a b : α}, a ∈ l → b ∈ l →
      p a = true → p b = true → a = b := by
  intro l
  induction l with
  | nil => intro _ a b ha; exact absurd ha (List.not_mem_nil a)
  | cons x xs ih =>
    intro h a b ha hb hpa hpb
    rw [List.countP_cons] at h
    have hxs : xs.countP p ≤ 1 := le_trans (Nat.le_add_right _ _) h
    rcases List.mem_cons.mp ha with rfl | ha2 <;> rcases List.mem_cons.mp hb with rfl | hb2
    · rfl
    · exfalso
      have h0 : 0 < xs.countP p := List.countP_pos_iff.mpr ⟨b, hb2, hpb⟩
      rw [if_pos hpa] at h
      omega
    · exfalso
      have h0 : 0 < xs.countP p := List.countP_pos_iff.mpr ⟨a, ha2, hpa⟩
      rw [if_pos hpb] at h
      omega
    · exact ih hxs ha2 hb2 hpa hpb

/-- The update step of `createOrUpdate` touches only score and reason, so it
never changes whether a row matches `(user_id, event_id)`. -/
theorem keyMatch_update (u e : ℕ) (r : StoredRec) (b : ℕ) (sc : ℚ) (rs : String) :
    keyMatch u e (if r.id == b then { r with score := sc, reason := rs } else r) =
      keyMatch u e r := by
  by_cases h : r.id == b
  · rw [if_pos h]; rfl
  · rw [if_neg h]

/-- One `createOrUpdate` call on a store holding at most one row for the
pair leaves exactly one row for the pair, carrying the written score and
reason. -/
theorem createOrUpdate_spec (store : List StoredRec) (u e : ℕ) (sc : ℚ) (rs : String)
    (h : store.countP (keyMatch u e) ≤ 1) :
    (createOrUpdate store u e sc rs).countP (keyMatch u e) = 1 ∧
    ∀ r ∈ createOrUpdate store u e sc rs, keyMatch u e r = true →
      r.score = sc ∧ r.reason = rs := by
  unfold createOrUpdate
  rcases hfind : store.find? (keyMatch u e) with _ | ex
  · have hnone : ∀ r ∈ store, ¬ keyMatch u e r = true := List.find?_eq_none.mp hfind
    have hzero : store.countP (keyMatch u e) = 0 := List.countP_eq_zero.mpr hnone
    have hnew : keyMatch u e
        ({ id := nextId store, user_id := u, event_id := e, score := sc, reason := rs }
          : StoredRec) = true := by
      simp [keyMatch]
    constructor
    · rw [List.countP_append, hzero, List.countP_cons, List.countP_nil, if_pos hnew]
    · intro r hr hp
      rcases List.mem_append.mp hr with hr1 | hr2
      · exact absurd hp (hnone r hr1)
      · rcases List.mem_singleton.mp hr2 with rfl
        exact ⟨rfl, rfl⟩
  · have hexm : ex ∈ store := List.mem_of_find?_eq_some hfind
    have hexp : keyMatch u e ex = true := List.find?_some hfind
    have hpres : ∀ r ∈ store,
        keyMatch u e ((fun r => if r.id == ex.id then { r with score := sc, reason := rs }
          else r) r) = true ↔ keyMatch u e r = true := by
      intro r _
      rw [keyMatch_update]
    have hcount : (store.map fun r =>
        if r.id == ex.id then { r with score := sc, reason := rs } else r).countP
          (keyMatch u e) = store.countP (keyMatch u e) := by
      rw [List.countP_map]
      exact List.countP_congr hpres
    have hone : store.countP (keyMatch u e) = 1 := by
      have h0 : 0 < store.countP (keyMatch u e) := List.countP_pos_iff.mpr ⟨ex, hexm, hexp⟩
      omega
    constructor
    · rw [hcount, hone]
    · intro r' hr' hp'
      obtain ⟨r, hr, rfl⟩ := List.mem_map.mp hr'
      have hpr : keyMatch u e r = true := by
        rw [keyMatch_update] at hp'
        exact hp'
      have hre : r = ex := countP_le_one_unique h hr hexm hpr hexp
      subst hre
      rw [if_pos (by simp)]
      exact ⟨rfl, rfl⟩

/-- C7, confirmed.  On a store with at most one row for `(user_id,
event_id)` (the table's unique key), calling `createOrUpdate` twice with
the same pair and the same score/reason leaves exactly one stored row for
the pair, and that row holds the written score and reason: the second run
overwrites rather than duplicating. -/
theorem C7_upsert_idempotent_on_unique_key :
    ∀ (store : List StoredRec) (u e : ℕ) (sc : ℚ) (rs : String),
      store.countP (keyMatch u e) ≤ 1 →
      (createOrUpdate (createOrUpdate store u e sc rs) u e sc rs).countP (keyMatch u e) = 1 ∧
      ∀ r ∈ createOrUpdate (createOrUpdate store u e sc rs) u e sc rs,
        keyMatch u e r = true → r.score = sc ∧ r.reason = rs := by
  intro store u e sc rs h
  exact createOrUpdate_spec _ u e sc rs (le_of_eq (createOrUpdate_spec store u e sc rs h).1)

/-- Witness for the double-upsert theorem on the empty store. -/
theorem C7_upsert_idempotent_on_unique_key_witness :
    (([] : List StoredRec).countP (keyMatch 1 2) ≤ 1) ∧
    (createOrUpdate (createOrUpdate [] 1 2 (3/4) "r") 1 2 (3/4) "r").countP (keyMatch 1 2) = 1 :=
  ⟨by simp, (C7_upsert_idempotent_on_unique_key [] 1 2 (3/4) "r" (by simp)).1⟩

/-- C8, confirmed.  Reason selection uses strict lower bounds, highest
bucket first: any score strictly above 0.8 gets the "Highly matches"
bucket, any score at most 0.8 does not, and a score of exactly 0.8 falls
into the "Similar to events" bucket in both the part_009 and the part_010
reason functions. -/
theorem C8_reason_thresholds_strict :
    (∀ s : ℚ, 4/5 < s →
      generateRecommendationReason s =
        "Highly matches your interests based on your ratings and reviews") ∧
    (∀ s : ℚ, s ≤ 4/5 →
      generateRecommendationReason s ≠
        "Highly matches your interests based on your ratings and reviews") ∧
    generateRecommendationReason (4/5) = "Similar to events you\x27ve enjoyed in the past" ∧
    aiReason (4/5) = "Similar to events you enjoyed" := by
  refine ⟨fun s h => ?_, fun s h => ?_, ?_, ?_⟩
  · rw [generateRecommendationReason, if_pos h]
  · rw [generateRecommendationReason, if_neg (not_lt.mpr h)]
    split_ifs <;> decide
  · norm_num [generateRecommendationReason]
  · norm_num [aiReason]

/-- Witness for the threshold theorem at scores 1 and 0.8. -/
theorem C8_reason_thresholds_strict_witness :
    generateRecommendationReason 1 =
      "Highly matches your interests based on your ratings and reviews" ∧
    generateRecommendationReason (4/5) ≠
      "Highly matches your interests based on your ratings and reviews" :=
  ⟨C8_reason_thresholds_strict.1 1 (by norm_num),
   C8_reason_thresholds_strict.2.1 (4/5) (by norm_num)⟩

/-- C9, confirmed.  `getPopularEvents` returns at most `limit` events; the
returned list extended by the dropped remainder is sorted descending by
`avg_rating*0.5 + calendar_count*0.3 + review_count*0.2` and is a
permutation of the events passing the date/status/category filter; and
every returned event passes that filter (date today or later, status
"upcoming", and the requested category when one is supplied). -/
theorem C9_popular_events_query :
    ∀ (today : ℕ) (events : List PopRow) (limit : ℕ) (categoryId : Option ℕ),
      (getPopularEvents today events limit categoryId).length =
        min limit (events.filter (popFilter today categoryId)).length ∧
      (getPopularEvents today events limit categoryId ++
        (sortByDesc popularityKey (events.filter (popFilter today categoryId))).drop
          limit).Pairwise (fun a b => popularityKey b ≤ popularityKey a) ∧
      (getPopularEvents today events limit categoryId ++
        (sortByDesc popularityKey (events.filter (popFilter today categoryId))).drop
          limit).Perm (events.filter (popFilter today categoryId)) ∧
      (getPopularEvents today events limit categoryId).all (popFilter today categoryId) = true := by
  intro today events limit categoryId
  refine ⟨?_, ?_, ?_, ?_⟩
  · rw [getPopularEvents, List.length_take, sortByDesc_length]
  · rw [getPopularEvents, List.take_append_drop]
    exact sortByDesc_sorted _ _
  · rw [getPopularEvents, List.take_append_drop]
    exact sortByDesc_perm _ _
  · rw [List.all_eq_true]
    intro e he
    rw [getPopularEvents] at he
    have h1 : e ∈ sortByDesc popularityKey (events.filter (popFilter today categoryId)) :=
      List.take_subset _ _ he
    have h2 : e ∈ events.filter (popFilter today categoryId) :=
      (sortByDesc_perm _ _).mem_iff.mp h1
    exact List.of_mem_filter h2

/-- C10, confirmed.  The fallback path returns at most 5 recommendations,
each with the fixed reason string and a score of `avg_rating / 5`, and each
originating from the first 10 events of the input list — an event at
position 11 or later is never recommended, whatever its rating. -/
theorem C10_fallback_first_ten_only :
    ∀ (userId : ℕ) (events : List Event009),
      (generateFallbackRecommendations userId events).length ≤ 5 ∧
      ∀ rec ∈ generateFallbackRecommendations userId events,
        rec.reason = "Based on event popularity and rating" ∧
        rec.userId = userId ∧
        ∃ e ∈ events.take 10, rec.eventId = e.id ∧ rec.score = e.avg_rating / 5 := by
  intro userId events
  constructor
  · rw [generateFallbackRecommendations]
    simp [List.length_take]
  · intro rec hrec
    rw [generateFallbackRecommendations] at hrec
    have h1 := List.take_subset _ _ hrec
    have h2 := (sortByDesc_perm _ _).mem_iff.mp h1
    obtain ⟨e, he, rfl⟩ := List.mem_map.mp h2
    exact ⟨rfl, rfl, e, he, rfl, rfl⟩

/-- Witness for the fallback theorem on a one-event list. -/
theorem C10_fallback_first_ten_only_witness :
    (⟨3, 7, 1, "Based on event popularity and rating"⟩ : Rec009) ∈
      generateFallbackRecommendations 7 [⟨3, "T", "D", 5, []⟩] ∧
    (⟨3, 7, 1, "Based on event popularity and rating"⟩ : Rec009).reason =
      "Based on event popularity and rating" := by
  have hm : (⟨3, 7, 1, "Based on event popularity and rating"⟩ : Rec009) ∈
      generateFallbackRecommendations 7 [⟨3, "T", "D", 5, []⟩] := by
    norm_num [generateFallbackRecommendations, sortByDesc, List.insertionSort,
      List.orderedInsert]
  exact ⟨hm, ((C10_fallback_first_ten_only 7 [⟨3, "T", "D", 5, []⟩]).2 _ hm).1⟩

end Review
